import Mathlib

/-!
Verification of the analysis pipeline of the warehouse safety monitor.

The repository ships the React frontend (`src/frontend/src/App.js`); the
backend components described by the specification (Model Gateway, Response
Parser/Validator, Risk Classifier, Record Store, Statistics Aggregator,
Analysis Service) are not part of the visible sources, so they are modelled
here from the specification's words.  The frontend helpers
(`analyzeImage`, `getPriorityColor`, `getSafetyScoreColor`) are embedded
directly from `App.js`.
-/

set_option maxRecDepth 4000
set_option linter.unusedVariables false

/-! ## Data model (spec §3) -/

/-- Modelled from the spec: closed enum for `DetectedItem.category`
(`hazard` or `equipment`); the backend classifier source is not in the
repository. -/
inductive Category where
  | hazard : Category
  | equipment : Category
deriving DecidableEq, Repr

/-- Modelled from the spec: closed enum for `DetectedItem.priority`
(`low`, `medium`, `high`). -/
inductive Priority where
  | low : Priority
  | medium : Priority
  | high : Priority
deriving DecidableEq, Repr

/-- Modelled from the spec: closed enum for the overall safety score
(`safe`, `caution`, `danger`). -/
inductive Score where
  | safe : Score
  | caution : Score
  | danger : Score
deriving DecidableEq, Repr

/-- Modelled from the spec: one finding from a single analysis (spec §3,
`DetectedItem`).  `priority` is optional coming out of the parser: the
classifier applies the `low` fallback. -/
structure DetectedItem where
  name : String
  category : Category
  description : String
  confidence : String
  priority : Option Priority
  location : Option String
  action : String
deriving DecidableEq, Repr

/-! ## Risk Classifier (spec §4.3), modelled from the spec -/

/-- Modelled from the spec: the priority used during rule evaluation,
with missing `priority` defaulting to `low` (spec §4.3). -/
def itemPriority (it : DetectedItem) : Priority :=
  it.priority.getD Priority.low

/-- Modelled from the spec: rule 1 trigger — `category = hazard` and
`priority = high`. -/
def isHazardHigh (it : DetectedItem) : Bool :=
  it.category == Category.hazard && itemPriority it == Priority.high

/-- Modelled from the spec: rule 2 trigger — `category = hazard` (any
priority) or `priority = medium/high`. -/
def isCautionTrigger (it : DetectedItem) : Bool :=
  it.category == Category.hazard
    || itemPriority it == Priority.medium
    || itemPriority it == Priority.high

/-- Modelled from the spec: the derived overall safety score, rules 1-3 of
spec §4.3 in order of precedence. -/
def derivedScore (items : List DetectedItem) : Score :=
  if items.any isHazardHigh then Score.danger
  else if items.any isCautionTrigger then Score.caution
  else Score.safe

/-- Modelled from the spec: normalization of one item — the `low` default
is made explicit, nothing else changes and the item is never dropped. -/
def normalizeItem (it : DetectedItem) : DetectedItem :=
  { it with priority := some (itemPriority it) }

/-- Modelled from the spec: `classify(items, modelProvidedScore?) ->
(overallSafetyScore, normalizedItems)` (spec §4.3).  The derived value
always wins over the model-provided score (rule 4). -/
def classify (items : List DetectedItem) (modelScore : Option Score) :
    Score × List DetectedItem :=
  (derivedScore items, items.map normalizeItem)

/-! Helper lemmas turning the boolean triggers into propositions. -/

theorem isHazardHigh_iff (it : DetectedItem) :
    isHazardHigh it = true ↔
      it.category = Category.hazard ∧ itemPriority it = Priority.high := by
  simp [isHazardHigh, Bool.and_eq_true, beq_iff_eq]

theorem isCautionTrigger_iff (it : DetectedItem) :
    isCautionTrigger it = true ↔
      it.category = Category.hazard ∨ itemPriority it = Priority.medium ∨
        itemPriority it = Priority.high := by
  simp [isCautionTrigger, Bool.or_eq_true, beq_iff_eq, or_assoc]

/-- C1: `classify` returns `danger` when some item is a high-priority
hazard; otherwise `caution` when some item is a hazard (any priority) or
has medium/high priority; otherwise `safe` (in particular on the empty
sequence), in exactly this order of precedence. -/
theorem classify_precedence (items : List DetectedItem) (ms : Option Score) :
    ((∃ it ∈ items, it.category = Category.hazard ∧
        itemPriority it = Priority.high) →
      (classify items ms).1 = Score.danger)
    ∧ ((¬ ∃ it ∈ items, it.category = Category.hazard ∧
          itemPriority it = Priority.high) →
       (∃ it ∈ items, it.category = Category.hazard ∨
          itemPriority it = Priority.medium ∨
          itemPriority it = Priority.high) →
      (classify items ms).1 = Score.caution)
    ∧ ((¬ ∃ it ∈ items, it.category = Category.hazard ∨
          itemPriority it = Priority.medium ∨
          itemPriority it = Priority.high) →
      (classify items ms).1 = Score.safe)
    ∧ (classify ([] : List DetectedItem) ms).1 = Score.safe := by
  refine ⟨?_, ?_, ?_, rfl⟩
  · intro h
    have hany : items.any isHazardHigh = true := by
      rcases h with ⟨it, hmem, hprop⟩
      exact List.any_eq_true.mpr ⟨it, hmem, (isHazardHigh_iff it).mpr hprop⟩
    simp [classify, derivedScore, hany]
  · intro hno h2
    have hnone : items.any isHazardHigh = false := by
      rw [Bool.eq_false_iff]
      intro hc
      rcases List.any_eq_true.mp hc with ⟨it, hmem, hp⟩
      exact hno ⟨it, hmem, (isHazardHigh_iff it).mp hp⟩
    have hany : items.any isCautionTrigger = true := by
      rcases h2 with ⟨it, hmem, hprop⟩
      exact List.any_eq_true.mpr ⟨it, hmem, (isCautionTrigger_iff it).mpr hprop⟩
    simp [classify, derivedScore, hnone, hany]
  · intro hno
    have h2 : items.any isCautionTrigger = false := by
      rw [Bool.eq_false_iff]
      intro hc
      rcases List.any_eq_true.mp hc with ⟨it, hmem, hp⟩
      exact hno ⟨it, hmem, (isCautionTrigger_iff it).mp hp⟩
    have h1 : items.any isHazardHigh = false := by
      rw [Bool.eq_false_iff]
      intro hc
      rcases List.any_eq_true.mp hc with ⟨it, hmem, hp⟩
      rcases (isHazardHigh_iff it).mp hp with ⟨hcat, _⟩
      exact hno ⟨it, hmem, Or.inl hcat⟩
    simp [classify, derivedScore, h1, h2]

/-- A concrete high-priority hazard item, used by witnesses. -/
def spillItem : DetectedItem :=
  { name := "chemical spill"
    category := Category.hazard
    priority := some Priority.high
    description := "spill near walkway"
    confidence := "0.95"
    location := some "aisle 3"
    action := "deploy spill kit" }

/-- C1 witness: the precedence theorem applied at the concrete singleton
list containing a high-priority hazard yields `danger`. -/
theorem classify_precedence_witness :
    (classify [spillItem] none).1 = Score.danger :=
  (classify_precedence [spillItem] none).1
    ⟨spillItem, by simp, by simp [spillItem, itemPriority]⟩

/-! ## Analysis Service, Record Store and Statistics Aggregator
(spec §4.4-§4.6), modelled from the spec -/

/-- Modelled from the spec: one completed analysis (spec §3,
`AnalysisRecord`). -/
structure AnalysisRecord where
  id : Nat
  imageName : String
  timestamp : Nat
  detectedItems : List DetectedItem
  overallSafetyScore : Score
  summary : String
deriving DecidableEq, Repr

/-- Modelled from the spec: the error taxonomy of spec §7. -/
inductive AnalyzeError where
  | InvalidInput : AnalyzeError
  | ModelUnavailable : AnalyzeError
  | ModelRejected : AnalyzeError
  | MalformedResponse : String → AnalyzeError
  | UnparsableResponse : AnalyzeError
  | StoreUnavailable : AnalyzeError
deriving DecidableEq, Repr

/-- Modelled from the spec: the validated payload produced by the
Response Parser/Validator (spec §4.2). -/
structure ValidatedPayload where
  detected_items : List DetectedItem
  overall_safety_score : Option Score
  summary : String
deriving DecidableEq, Repr

/-- Modelled from the spec: the combined state of the Record Store
(canonical append-ordered sequence) and the Statistics Aggregator
(running counts), spec §4.4-§4.5. -/
structure ServiceState where
  records : List AnalysisRecord
  nextId : Nat
  totalAnalyses : Nat
  safeCount : Nat
  cautionCount : Nat
  dangerCount : Nat
deriving DecidableEq, Repr

/-- Modelled from the spec: the empty store with zeroed counters. -/
def initState : ServiceState :=
  { records := [], nextId := 0, totalAnalyses := 0,
    safeCount := 0, cautionCount := 0, dangerCount := 0 }

/-- Modelled from the spec: `list()` returns all records most-recent-first
(spec §4.4); the canonical sequence is stored in creation order. -/
def listRecords (st : ServiceState) : List AnalysisRecord :=
  st.records.reverse

/-- Modelled from the spec: the successful tail of `analyze` - classify,
append (assigning id and timestamp), and the O(1) statistics update
(spec §4.3-§4.6). -/
def analyzeOk (st : ServiceState) (imageName : String) (now : Nat)
    (payload : ValidatedPayload) : AnalysisRecord × ServiceState :=
  let cres := classify payload.detected_items payload.overall_safety_score
  let stored := { id := st.nextId, imageName := imageName, timestamp := now,
                  detectedItems := cres.2, overallSafetyScore := cres.1,
                  summary := payload.summary : AnalysisRecord }
  (stored,
   { records := st.records ++ [stored]
     nextId := st.nextId + 1
     totalAnalyses := st.totalAnalyses + 1
     safeCount := st.safeCount + (if cres.1 = Score.safe then 1 else 0)
     cautionCount := st.cautionCount + (if cres.1 = Score.caution then 1 else 0)
     dangerCount := st.dangerCount + (if cres.1 = Score.danger then 1 else 0) })

/-- Modelled from the spec: one `analyze` call.  The gateway and parser
stages are external inputs summarized by `outcome`: either a typed error
from stages 4.1-4.3 or a validated payload.  A failure aborts before any
persistence and is surfaced to the caller (spec §4.6). -/
def analyzeStep (st : ServiceState) (imageName : String) (now : Nat)
    (outcome : Except AnalyzeError ValidatedPayload) :
    ServiceState × Except AnalyzeError AnalysisRecord :=
  match outcome with
  | Except.error e => (st, Except.error e)
  | Except.ok payload =>
      let r := analyzeOk st imageName now payload
      (r.2, Except.ok r.1)

/-- Modelled from the spec: a whole session - folding a sequence of
`analyze` calls over the initial state. -/
def runCalls (st : ServiceState)
    (calls : List (String × Nat × Except AnalyzeError ValidatedPayload)) :
    ServiceState :=
  calls.foldl (fun s c => (analyzeStep s c.1 c.2.1 c.2.2).1) st

/-- The statistics invariant of spec §3 / §8. -/
def statsInvariant (st : ServiceState) : Prop :=
  st.safeCount + st.cautionCount + st.dangerCount = st.totalAnalyses

theorem statsInvariant_step (st : ServiceState) (n : String) (t : Nat)
    (o : Except AnalyzeError ValidatedPayload) (h : statsInvariant st) :
    statsInvariant (analyzeStep st n t o).1 := by
  cases o with
  | error e => simpa [analyzeStep] using h
  | ok payload =>
      unfold statsInvariant at h ⊢
      simp only [analyzeStep, analyzeOk]
      rcases hs : (classify payload.detected_items payload.overall_safety_score).1 with _ | _ | _ <;>
        simp [hs] <;> omega

/-- C2: after any sequence of `analyze` calls starting from the empty
store, the statistics snapshot satisfies
`safeCount + cautionCount + dangerCount = totalAnalyses` (all four counts
are of type `Nat`, hence non-negative). -/
theorem stats_invariant_holds
    (calls : List (String × Nat × Except AnalyzeError ValidatedPayload)) :
    statsInvariant (runCalls initState calls) := by
  suffices h : ∀ st, statsInvariant st → statsInvariant (runCalls st calls) from
    h initState (by simp [statsInvariant, initState])
  induction calls with
  | nil => intro st h; simpa [runCalls] using h
  | cons c rest ih =>
      intro st h
      have h1 := statsInvariant_step st c.1 c.2.1 c.2.2 h
      simpa [runCalls] using ih _ h1

/-- C3: an `analyze` call whose gateway/parser/classifier stage fails
leaves the service state - in particular the Record Store's `list()`
output - unchanged, and the typed error is surfaced to the caller. -/
theorem failed_analyze_frame (st : ServiceState) (n : String) (t : Nat)
    (o : Except AnalyzeError ValidatedPayload) (e : AnalyzeError)
    (h : o = Except.error e) :
    (analyzeStep st n t o).1 = st
    ∧ listRecords (analyzeStep st n t o).1 = listRecords st
    ∧ (analyzeStep st n t o).2 = Except.error e := by
  subst h
  exact ⟨rfl, rfl, rfl⟩

/-- C3 witness: a concrete failing call against a concrete non-empty store
leaves `list()` unchanged and surfaces `ModelUnavailable`. -/
theorem failed_analyze_frame_witness :
    (analyzeStep (runCalls initState [("a.png", 5, Except.ok ⟨[], none, "ok"⟩)])
        "b.png" 9 (Except.error AnalyzeError.ModelUnavailable)).1
      = runCalls initState [("a.png", 5, Except.ok ⟨[], none, "ok"⟩)]
    ∧ (analyzeStep (runCalls initState [("a.png", 5, Except.ok ⟨[], none, "ok"⟩)])
        "b.png" 9 (Except.error AnalyzeError.ModelUnavailable)).2
      = Except.error AnalyzeError.ModelUnavailable := by
  have h := failed_analyze_frame
    (runCalls initState [("a.png", 5, Except.ok ⟨[], none, "ok"⟩)])
    "b.png" 9 (Except.error AnalyzeError.ModelUnavailable)
    AnalyzeError.ModelUnavailable rfl
  exact ⟨h.1, h.2.2⟩

/-- C4: the stored record's `overallSafetyScore` is always the value
derived from the precedence rules; whenever a model-supplied score
disagrees with the derived value, the stored score is not the
model-supplied one. -/
theorem stored_score_is_derived (st : ServiceState) (n : String) (t : Nat)
    (payload : ValidatedPayload) :
    (analyzeOk st n t payload).1.overallSafetyScore
        = derivedScore payload.detected_items
    ∧ ∀ s : Score, payload.overall_safety_score = some s →
        s ≠ derivedScore payload.detected_items →
        (analyzeOk st n t payload).1.overallSafetyScore ≠ s := by
  refine ⟨rfl, ?_⟩
  intro s hs hne
  simpa [analyzeOk, classify] using fun h => hne h.symm

/-- C4 witness: a payload whose items imply `danger` but whose
model-supplied score is `safe` is stored with score `danger`, not
`safe`. -/
theorem stored_score_is_derived_witness :
    (analyzeOk initState "w.png" 3
        ⟨[spillItem], some Score.safe, "sum"⟩).1.overallSafetyScore
      = Score.danger
    ∧ (analyzeOk initState "w.png" 3
        ⟨[spillItem], some Score.safe, "sum"⟩).1.overallSafetyScore
      ≠ Score.safe := by
  have h := stored_score_is_derived initState "w.png" 3
    ⟨[spillItem], some Score.safe, "sum"⟩
  refine ⟨?_, h.2 Score.safe rfl (by decide)⟩
  rw [h.1]
  decide

/-- C5: an item with no `priority` field is treated exactly as an item
with explicit `low` priority - `classify` returns the same verdict and
the same normalized output - and the item is kept in the output at its
position with `priority = low`. -/
theorem missing_priority_defaults_low (pre post : List DetectedItem)
    (it : DetectedItem) (ms : Option Score) (h : it.priority = none) :
    classify (pre ++ it :: post) ms
      = classify (pre ++ { it with priority := some Priority.low } :: post) ms
    ∧ (classify (pre ++ it :: post) ms).2
      = pre.map normalizeItem
          ++ { it with priority := some Priority.low } :: post.map normalizeItem := by
  have hit : ({ it with priority := some Priority.low } : DetectedItem)
      = normalizeItem it := by
    simp [normalizeItem, itemPriority, h]
  have hprio : itemPriority { it with priority := some Priority.low }
      = itemPriority it := by
    simp [itemPriority, h]
  constructor
  · unfold classify derivedScore
    have h1 : isHazardHigh it
        = isHazardHigh { it with priority := some Priority.low } := by
      simp [isHazardHigh, hprio]
    have h2 : isCautionTrigger it
        = isCautionTrigger { it with priority := some Priority.low } := by
      simp [isCautionTrigger, hprio]
    have h3 : normalizeItem it
        = normalizeItem { it with priority := some Priority.low } := by
      simp [normalizeItem, itemPriority, h]
    simp [List.any_append, List.any_cons, h1, h2, h3]
  · simp [classify, hit]

/-- C5 witness: the theorem applied at a concrete item lacking a
priority, between concrete neighbours. -/
theorem missing_priority_defaults_low_witness :
    (classify [{ spillItem with priority := none }] none).2
      = [{ spillItem with priority := some Priority.low }] := by
  have h := missing_priority_defaults_low [] [] { spillItem with priority := none }
    none rfl
  simpa using h.2

/-! ## Response Parser/Validator (spec §4.2), modelled from the spec -/

/-- Modelled from the spec: a JSON value, the target of the structural
extraction of spec §4.2 / §9. -/
inductive Json where
  | null : Json
  | bool : Bool → Json
  | num : Int → Json
  | str : String → Json
  | arr : List Json → Json
  | obj : List (String × Json) → Json
deriving Repr

/-- Whitespace skipping for the recursive-descent parse. -/
def skipWs : List Char → List Char
  | c :: rest =>
      if c = ' ' || c = '\n' || c = '\t' || c = '\r' then skipWs rest
      else c :: rest
  | [] => []

/-- Minimal escape handling inside JSON string literals. -/
def unescapeChar (c : Char) : Char :=
  if c = 'n' then '\n'
  else if c = 't' then '\t'
  else if c = 'r' then '\r'
  else c

/-- Body of a JSON string literal, after the opening quote: collects
characters up to the unescaped closing quote. -/
def parseStringBody : List Char → Option (List Char × List Char)
  | [] => none
  | '"' :: rest => some ([], rest)
  | '\\' :: e :: rest =>
      (parseStringBody rest).map (fun p => (unescapeChar e :: p.1, p.2))
  | c :: rest =>
      (parseStringBody rest).map (fun p => (c :: p.1, p.2))

/-- Expects the given literal characters at the head of the input. -/
def dropLit : List Char → List Char → Option (List Char)
  | [], cs => some cs
  | l :: ls, c :: cs => if c = l then dropLit ls cs else none
  | _ :: _, [] => none

/-- Digits to a natural number. -/
def digitsToNat (ds : List Char) : Nat :=
  ds.foldl (fun acc c => acc * 10 + (c.toNat - 48)) 0

/-- A JSON number: optional minus, integer digits, optional (ignored)
fraction digits; the integer part is kept. -/
def parseNumBody (cs : List Char) : Option (Int × List Char) :=
  let core : List Char → Option (Nat × List Char) := fun l =>
    let ds := l.takeWhile Char.isDigit
    if ds.isEmpty then none
    else
      let rest := l.dropWhile Char.isDigit
      match rest with
      | '.' :: r2 =>
          let fs := r2.takeWhile Char.isDigit
          if fs.isEmpty then none
          else some (digitsToNat ds, r2.dropWhile Char.isDigit)
      | _ => some (digitsToNat ds, rest)
  match cs with
  | '-' :: rest => (core rest).map (fun p => (-(p.1 : Int), p.2))
  | _ => (core cs).map (fun p => ((p.1 : Int), p.2))

/-- Parse mode: a single value, the members of an object after `\x7b`, or
the elements of an array after `[`. -/
inductive PMode where
  | value : PMode
  | members : PMode
  | elements : PMode
deriving DecidableEq, Repr

/-- Result of one parse-mode invocation. -/
inductive PRes where
  | val : Json → PRes
  | mems : List (String × Json) → PRes
  | elems : List Json → PRes
deriving Repr

/-- Fuel-indexed recursive-descent JSON parser (spec §9: the two-stage
extraction feeds a structural parse of the model text).  The fuel only
bounds nesting/iteration; any fuel at least the input length is enough. -/
def parseP : Nat → PMode → List Char → Option (PRes × List Char)
  | 0, _, _ => none
  | fuel + 1, PMode.value, cs =>
      match skipWs cs with
      | [] => none
      | c :: rest =>
          if c = '"' then
            (parseStringBody rest).map
              (fun p => (PRes.val (Json.str (String.mk p.1)), p.2))
          else if c = '\x7b' then
            match parseP fuel PMode.members rest with
            | some (PRes.mems ms, r) => some (PRes.val (Json.obj ms), r)
            | _ => none
          else if c = '[' then
            match parseP fuel PMode.elements rest with
            | some (PRes.elems es, r) => some (PRes.val (Json.arr es), r)
            | _ => none
          else if c = 't' then
            (dropLit ['r', 'u', 'e'] rest).map
              (fun r => (PRes.val (Json.bool true), r))
          else if c = 'f' then
            (dropLit ['a', 'l', 's', 'e'] rest).map
              (fun r => (PRes.val (Json.bool false), r))
          else if c = 'n' then
            (dropLit ['u', 'l', 'l'] rest).map
              (fun r => (PRes.val Json.null, r))
          else if c = '-' || c.isDigit then
            (parseNumBody (c :: rest)).map
              (fun p => (PRes.val (Json.num p.1), p.2))
          else none
  | fuel + 1, PMode.members, cs =>
      match skipWs cs with
      | '\x7d' :: rest => some (PRes.mems [], rest)
      | '"' :: rest =>
          match parseStringBody rest with
          | none => none
          | some (k, r1) =>
              match skipWs r1 with
              | ':' :: r2 =>
                  match parseP fuel PMode.value r2 with
                  | some (PRes.val v, r3) =>
                      match skipWs r3 with
                      | ',' :: r4 =>
                          match parseP fuel PMode.members r4 with
                          | some (PRes.mems ms, r5) =>
                              some (PRes.mems ((String.mk k, v) :: ms), r5)
                          | _ => none
                      | '\x7d' :: r4 => some (PRes.mems [(String.mk k, v)], r4)
                      | _ => none
                  | _ => none
              | _ => none
      | _ => none
  | fuel + 1, PMode.elements, cs =>
      match skipWs cs with
      | ']' :: rest => some (PRes.elems [], rest)
      | cs' =>
          match parseP fuel PMode.value cs' with
          | some (PRes.val v, r1) =>
              match skipWs r1 with
              | ',' :: r2 =>
                  match parseP fuel PMode.elements r2 with
                  | some (PRes.elems es, r3) => some (PRes.elems (v :: es), r3)
                  | _ => none
              | ']' :: r2 => some (PRes.elems [v], r2)
              | _ => none
          | _ => none

/-- Modelled from the spec: the direct structural parse of the whole raw
text (stage one of the extraction, spec §4.2) - the text must be exactly
one JSON value, up to surrounding whitespace. -/
def directParse (raw : String) : Option Json :=
  match parseP (raw.length + 1) PMode.value raw.data with
  | some (PRes.val j, rest) =>
      match skipWs rest with
      | [] => some j
      | _ => none
  | _ => none

/-- Scans for the end of the balanced brace block, tracking depth. -/
def takeBalanced : List Char → Nat → List Char → Option (List Char)
  | [], _, _ => none
  | c :: rest, depth, acc =>
      if c = '\x7b' then takeBalanced rest (depth + 1) (c :: acc)
      else if c = '\x7d' then
        if depth = 1 then some (c :: acc).reverse
        else takeBalanced rest (depth - 1) (c :: acc)
      else takeBalanced rest depth (c :: acc)

/-- Modelled from the spec: the first balanced `\x7b...\x7d` block of the
raw text (stage two of the extraction, spec §4.2). -/
def firstBalancedBlock : List Char → Option (List Char)
  | [] => none
  | c :: rest =>
      if c = '\x7b' then takeBalanced (c :: rest) 0 []
      else firstBalancedBlock rest

/-- Modelled from the spec: extraction of a JSON object from the raw
model text - direct parse first, then the first balanced brace block
(spec §4.2). -/
def extractObj (raw : String) : Option (List (String × Json)) :=
  match directParse raw with
  | some (Json.obj fields) => some fields
  | _ =>
      match firstBalancedBlock raw.data with
      | some block =>
          match directParse (String.mk block) with
          | some (Json.obj fields) => some fields
          | _ => none
      | none => none

/-- Modelled from the spec: parser-level failures (spec §4.2). -/
inductive ParseFailure where
  | UnparsableResponse : ParseFailure
  | MalformedResponse : String → ParseFailure
deriving DecidableEq, Repr

/-- First binding of a key in a JSON object. -/
def jLookup (k : String) : List (String × Json) → Option Json
  | [] => none
  | p :: rest => if p.1 = k then some p.2 else jLookup k rest

/-- A required non-empty string field (spec §4.2). -/
def asNonEmptyString (path : String) : Option Json → Except ParseFailure String
  | some (Json.str s) =>
      if s.isEmpty then Except.error (ParseFailure.MalformedResponse path)
      else Except.ok s
  | _ => Except.error (ParseFailure.MalformedResponse path)

/-- The closed `category` enum (spec §4.2): unrecognized values rejected. -/
def asCategory (path : String) : Option Json → Except ParseFailure Category
  | some (Json.str s) =>
      if s = "hazard" then Except.ok Category.hazard
      else if s = "equipment" then Except.ok Category.equipment
      else Except.error (ParseFailure.MalformedResponse path)
  | _ => Except.error (ParseFailure.MalformedResponse path)

/-- The optional `priority` enum: absent is fine (deferred default),
present but unrecognized is rejected (spec §3, §4.2). -/
def asOptPriority (path : String) :
    Option Json → Except ParseFailure (Option Priority)
  | none => Except.ok none
  | some (Json.str s) =>
      if s = "low" then Except.ok (some Priority.low)
      else if s = "medium" then Except.ok (some Priority.medium)
      else if s = "high" then Except.ok (some Priority.high)
      else Except.error (ParseFailure.MalformedResponse path)
  | some _ => Except.error (ParseFailure.MalformedResponse path)

/-- The optional `overall_safety_score` enum (spec §4.2). -/
def asOptScore (path : String) : Option Json → Except ParseFailure (Option Score)
  | none => Except.ok none
  | some (Json.str s) =>
      if s = "safe" then Except.ok (some Score.safe)
      else if s = "caution" then Except.ok (some Score.caution)
      else if s = "danger" then Except.ok (some Score.danger)
      else Except.error (ParseFailure.MalformedResponse path)
  | some _ => Except.error (ParseFailure.MalformedResponse path)

/-- The `confidence` signal: numeric or string, must be present (spec §3). -/
def asConfidence (path : String) : Option Json → Except ParseFailure String
  | some (Json.str s) => Except.ok s
  | some (Json.num n) => Except.ok (toString n)
  | _ => Except.error (ParseFailure.MalformedResponse path)

/-- The optional free-text `location` (spec §3). -/
def asOptLocation (path : String) :
    Option Json → Except ParseFailure (Option String)
  | none => Except.ok none
  | some (Json.str s) => Except.ok (some s)
  | some _ => Except.error (ParseFailure.MalformedResponse path)

/-- One detected item from its JSON object (spec §4.2 field checks). -/
def validateItem (j : Json) : Except ParseFailure DetectedItem :=
  match j with
  | Json.obj fields => do
      let name ← asNonEmptyString "name" (jLookup "name" fields)
      let category ← asCategory "category" (jLookup "category" fields)
      let description ← asNonEmptyString "description"
        (jLookup "description" fields)
      let confidence ← asConfidence "confidence" (jLookup "confidence" fields)
      let priority ← asOptPriority "priority" (jLookup "priority" fields)
      let location ← asOptLocation "location" (jLookup "location" fields)
      let action ← asNonEmptyString "action" (jLookup "action" fields)
      Except.ok { name := name, category := category,
                  description := description, confidence := confidence,
                  priority := priority, location := location, action := action }
  | _ => Except.error (ParseFailure.MalformedResponse "detected_items[]")

/-- The extracted object validated into a payload (spec §4.2):
`detected_items` must be present and a sequence (possibly empty). -/
def validateFields (fields : List (String × Json)) :
    Except ParseFailure ValidatedPayload :=
  match jLookup "detected_items" fields with
  | some (Json.arr js) => do
      let items ← js.mapM validateItem
      let score ← asOptScore "overall_safety_score"
        (jLookup "overall_safety_score" fields)
      let summary :=
        match jLookup "summary" fields with
        | some (Json.str s) => s
        | _ => ""
      Except.ok { detected_items := items, overall_safety_score := score,
                  summary := summary }
  | _ => Except.error (ParseFailure.MalformedResponse "detected_items")

/-- Modelled from the spec: `parse(rawModelText) -> ValidatedPayload`
(spec §4.2) - extraction (direct parse, then first balanced brace block)
followed by schema validation; `UnparsableResponse` when no JSON object
can be extracted at all. -/
def parse (raw : String) : Except ParseFailure ValidatedPayload :=
  match extractObj raw with
  | none => Except.error ParseFailure.UnparsableResponse
  | some fields => validateFields fields

/-- C6: extraction is direct parse first (a whole-text JSON object is
used as-is), falling back to the first balanced brace block, so prose
wrapping a valid JSON object parses successfully while text containing
no JSON object fails with `UnparsableResponse`. -/
theorem parse_two_stage_extraction :
    (∀ (raw : String) (fields : List (String × Json)),
        directParse raw = some (Json.obj fields) → extractObj raw = some fields)
    ∧ parse "Here is the result: \x7b\"detected_items\": []\x7d"
        = Except.ok { detected_items := [], overall_safety_score := none,
                      summary := "" }
    ∧ parse "I cannot analyze this image"
        = Except.error ParseFailure.UnparsableResponse := by
  refine ⟨?_, rfl, rfl⟩
  intro raw fields h
  simp [extractObj, h]

/-- C6 witness: the direct-parse clause applied at the bare JSON object
text, hypothesis discharged by evaluation. -/
theorem parse_two_stage_extraction_witness :
    extractObj "\x7b\"detected_items\": []\x7d"
      = some [("detected_items", Json.arr [])] :=
  parse_two_stage_extraction.1 "\x7b\"detected_items\": []\x7d"
    [("detected_items", Json.arr [])] rfl

/-! ## Frontend (`src/frontend/src/App.js`) -/

/-- JavaScript `String.prototype.split` with a one-character separator:
`"a,b,c".split(',') = ["a","b","c"]`, `"".split(',') = [""]`. -/
def jsSplit (sep : Char) : List Char → List (List Char)
  | [] => [[]]
  | c :: rest =>
      if c = sep then [] :: jsSplit sep rest
      else
        match jsSplit sep rest with
        | [] => [[c]]
        | g :: gs => (c :: g) :: gs

/-- A base64 alphabet character (RFC 4648, no padding). -/
def isB64Char (c : Char) : Bool :=
  c.isAlphanum || c = '+' || c = '/'

/-- Chunks of four base64 characters, the last chunk possibly padded with
one or two `=`. -/
def validB64Aux : List Char → Bool
  | [] => true
  | a :: b :: c :: d :: rest =>
      isB64Char a && isB64Char b &&
      (if rest.isEmpty then
          (isB64Char c && (isB64Char d || d = '=')) || (c = '=' && d = '=')
        else isB64Char c && isB64Char d && validB64Aux rest)
  | _ => false

/-- A (possibly empty) valid base64 string. -/
def isValidBase64 (s : String) : Bool :=
  validB64Aux s.data

/-- The body `analyzeImage` posts to `POST /api/analyze`
(`App.js` lines 115-118): exactly the two fields `image_base64` and
`image_name`. -/
structure AnalyzeRequestBody where
  image_base64 : String
  image_name : String
deriving DecidableEq, Repr

/-- `reader.result.split(',')[1]` (`App.js` line 111): the segment of the
FileReader data-URL between the first and second comma; `none` models
JavaScript `undefined` when no comma exists. -/
def dataUrlPayload (readerResult : String) : Option String :=
  ((jsSplit ',' readerResult.data).get? 1).map String.mk

/-- The request body built by `analyzeImage` from the FileReader result
and the selected file's name (`App.js` lines 111-118). -/
def analyzeRequestBody (readerResult : String) (fileName : String) :
    Option AnalyzeRequestBody :=
  (dataUrlPayload readerResult).map
    (fun b => { image_base64 := b, image_name := fileName })

theorem isB64Char_ne_comma (c : Char) (h : isB64Char c = true) : c ≠ ',' := by
  intro hc
  subst hc
  simp [isB64Char] at h

theorem validB64_no_comma :
    ∀ (l : List Char), validB64Aux l = true → ',' ∉ l
  | [], _ => by simp
  | [a], h => by simp [validB64Aux] at h
  | [a, b], h => by simp [validB64Aux] at h
  | [a, b, c], h => by simp [validB64Aux] at h
  | [a, b, c, d], h => by
      simp only [validB64Aux, List.isEmpty_nil, if_true, Bool.and_eq_true,
        Bool.or_eq_true] at h
      obtain ⟨⟨ha, hb⟩, htail⟩ := h
      intro hmem
      simp only [List.mem_cons, List.not_mem_nil, or_false] at hmem
      rcases hmem with h1 | h1 | h1 | h1
      · exact isB64Char_ne_comma a ha h1.symm
      · exact isB64Char_ne_comma b hb h1.symm
      · rcases htail with ⟨hc, _⟩ | ⟨hc, _⟩
        · exact isB64Char_ne_comma c hc h1.symm
        · rw [← h1] at hc; exact absurd hc (by decide)
      · rcases htail with ⟨_, hd | hd⟩ | ⟨_, hd⟩
        · exact isB64Char_ne_comma d hd h1.symm
        · rw [← h1] at hd; exact absurd hd (by decide)
        · rw [← h1] at hd; exact absurd hd (by decide)
  | a :: b :: c :: d :: e :: rest, h => by
      have h' : ((isB64Char a && isB64Char b)
          && (isB64Char c && isB64Char d && validB64Aux (e :: rest))) = true := h
      simp only [Bool.and_eq_true] at h'
      obtain ⟨⟨ha, hb⟩, ⟨hc, hd⟩, hrec⟩ := h'
      intro hmem
      simp only [List.mem_cons] at hmem
      rcases hmem with h1 | h1 | h1 | h1 | h1
      · exact isB64Char_ne_comma a ha h1.symm
      · exact isB64Char_ne_comma b hb h1.symm
      · exact isB64Char_ne_comma c hc h1.symm
      · exact isB64Char_ne_comma d hd h1.symm
      · exact validB64_no_comma (e :: rest) hrec (List.mem_cons.mpr h1)

theorem jsSplit_ne_nil (sep : Char) (l : List Char) : jsSplit sep l ≠ [] := by
  cases l with
  | nil => simp [jsSplit]
  | cons c rest =>
      by_cases h : c = sep
      · simp [jsSplit, h]
      · simp only [jsSplit, if_neg h]
        cases jsSplit sep rest <;> simp

theorem jsSplit_no_sep (sep : Char) :
    ∀ (l : List Char), sep ∉ l → jsSplit sep l = [l] := by
  intro l
  induction l with
  | nil => intro _; rfl
  | cons c rest ih =>
      intro h
      have hc : ¬ c = sep := fun hh => h (by simp [hh])
      have hr : sep ∉ rest := fun hh => h (by simp [hh])
      simp only [jsSplit, if_neg hc, ih hr]

theorem jsSplit_around_sep (sep : Char) :
    ∀ (l1 l2 : List Char), sep ∉ l1 →
      jsSplit sep (l1 ++ sep :: l2) = l1 :: jsSplit sep l2 := by
  intro l1
  induction l1 with
  | nil => intro l2 _; simp [jsSplit]
  | cons c rest ih =>
      intro l2 h
      have hc : ¬ c = sep := fun hh => h (by simp [hh])
      have hr : sep ∉ rest := fun hh => h (by simp [hh])
      simp only [List.cons_append, jsSplit, if_neg hc, List.append_eq, ih l2 hr]

/-- C7 (amended): for a FileReader data-URL `pre ++ "," ++ payload` whose
header has no comma and whose payload is valid base64 (possibly empty),
`analyzeImage` builds a body with exactly the fields `image_base64` and
`image_name`, where `image_base64` is the payload after the data-URL
comma and `image_name` is the file's name. -/
theorem analyze_request_fields (pre payload name : String)
    (hpre : ',' ∉ pre.data) (hpay : isValidBase64 payload = true) :
    analyzeRequestBody (pre ++ "," ++ payload) name
      = some { image_base64 := payload, image_name := name }
    ∧ isValidBase64 payload = true := by
  have hnp : ',' ∉ payload.data := validB64_no_comma payload.data hpay
  have hdata : (pre ++ "," ++ payload).data = pre.data ++ ',' :: payload.data := by
    rw [String.data_append, String.data_append]
    simp
  have h1 : jsSplit ',' (pre.data ++ ',' :: payload.data) = [pre.data, payload.data] := by
    rw [jsSplit_around_sep ',' pre.data payload.data hpre,
        jsSplit_no_sep ',' payload.data hnp]
  have hmk : String.mk payload.data = payload := rfl
  refine ⟨?_, hpay⟩
  unfold analyzeRequestBody dataUrlPayload
  rw [hdata, h1]
  simp [hmk]

/-- C7 counterexample: for the data URL the browser produces for an empty
image file, `analyzeImage` sends `image_base64 = ""` - an empty string,
refuting the claim that the sent `image_base64` is always non-empty. -/
theorem analyze_request_empty_payload :
    analyzeRequestBody "data:application/octet-stream;base64," "empty.png"
      = some { image_base64 := "", image_name := "empty.png" }
    ∧ ("" : String).isEmpty = true :=
  ⟨rfl, rfl⟩

/-- C7 witness: the amended theorem applied at a concrete data URL with a
non-empty payload. -/
theorem analyze_request_fields_witness :
    analyzeRequestBody ("data:image/png;base64" ++ "," ++ "QUJD") "img.png"
      = some { image_base64 := "QUJD", image_name := "img.png" } :=
  (analyze_request_fields "data:image/png;base64" "QUJD" "img.png"
    (by decide) (by decide)).1

/-- JavaScript `String.prototype.toLowerCase` on the ASCII class names
used by the component: each character lowercased. -/
def jsToLower (s : String) : String :=
  String.mk (s.data.map Char.toLower)

/-- `getPriorityColor`'s switch on the lowercased priority
(`App.js` lines 148-159). -/
def priorityClass (p : String) : String :=
  if p = "high" then "bg-red-500"
  else if p = "medium" then "bg-amber-500"
  else if p = "low" then "bg-blue-500"
  else "bg-zinc-600"

/-- `getPriorityColor` (`App.js` lines 148-159): `priority?.toLowerCase()`
maps `null`/`undefined` (modelled as `none`) and unrecognized strings to
the default class; `toLowerCase` is modelled by `String.toLower`. -/
def getPriorityColor (priority : Option String) : String :=
  match priority with
  | some p => priorityClass (jsToLower p)
  | none => "bg-zinc-600"

/-- `getSafetyScoreColor`'s switch on the lowercased score
(`App.js` lines 161-172). -/
def safetyClass (s : String) : String :=
  if s = "safe" then "text-green-500"
  else if s = "caution" then "text-amber-500"
  else if s = "danger" then "text-red-500"
  else "text-zinc-400"

/-- `getSafetyScoreColor` (`App.js` lines 161-172). -/
def getSafetyScoreColor (score : Option String) : String :=
  match score with
  | some s => safetyClass (jsToLower s)
  | none => "text-zinc-400"

/-- C9: both color helpers are total - every input, including `none`
(JavaScript `null`/`undefined`) and unrecognized strings, yields one of
the fixed CSS classes, `none` and unrecognized inputs map to the neutral
default - and case-insensitive: inputs with the same lowercase form map
to the same class. -/
theorem color_helpers_total (p s : Option String) :
    getPriorityColor p
      ∈ ["bg-red-500", "bg-amber-500", "bg-blue-500", "bg-zinc-600"]
    ∧ getSafetyScoreColor s
      ∈ ["text-green-500", "text-amber-500", "text-red-500", "text-zinc-400"]
    ∧ getPriorityColor none = "bg-zinc-600"
    ∧ getSafetyScoreColor none = "text-zinc-400"
    ∧ (∀ a b : String, jsToLower a = jsToLower b →
        getPriorityColor (some a) = getPriorityColor (some b)
        ∧ getSafetyScoreColor (some a) = getSafetyScoreColor (some b)) := by
  refine ⟨?_, ?_, rfl, rfl, ?_⟩
  · cases p with
    | none => simp [getPriorityColor]
    | some q =>
        simp only [getPriorityColor, priorityClass]
        split_ifs <;> simp
  · cases s with
    | none => simp [getSafetyScoreColor]
    | some q =>
        simp only [getSafetyScoreColor, safetyClass]
        split_ifs <;> simp
  · intro a b hab
    constructor
    · show priorityClass (jsToLower a) = priorityClass (jsToLower b)
      rw [hab]
    · show safetyClass (jsToLower a) = safetyClass (jsToLower b)
      rw [hab]

/-- C9 witness: the case-insensitivity clause applied at `"HIGH"` and
`"high"`, which map to the same (red) class. -/
theorem color_helpers_total_witness :
    getPriorityColor (some "HIGH") = getPriorityColor (some "high")
    ∧ getPriorityColor (some "high") = "bg-red-500" :=
  ⟨((color_helpers_total (some "HIGH") (some "high")).2.2.2.2 "HIGH" "high"
      (by decide)).1,
   by decide⟩

/-- The `/api/stats` snapshot as consumed by the frontend. -/
structure StatsSnapshot where
  total_analyses : Nat
  safe_count : Nat
  caution_count : Nat
  danger_count : Nat
deriving DecidableEq, Repr

/-- The component state of `App` (`App.js` lines 26-32): the `useState`
hooks, plus the toast log.  `selectedImage` holds the selected file's
name, `none` modelling JavaScript `null`. -/
structure UIState where
  selectedImage : Option String
  imagePreview : Option String
  analyzing : Bool
  analysis : Option AnalysisRecord
  history : List AnalysisRecord
  stats : Option StatsSnapshot
  toasts : List String
deriving DecidableEq, Repr

/-- An HTTP request issued by the component. -/
inductive UIRequest where
  | postAnalyze : AnalyzeRequestBody → UIRequest
  | getStats : UIRequest
  | getHistory : UIRequest
deriving DecidableEq, Repr

/-- The outcome of the `POST /api/analyze` round trip as seen by the
`onloadend` handler: the 200 response together with the refreshed
stats/history, or the error message. -/
inductive PostOutcome where
  | success : AnalysisRecord → StatsSnapshot → List AnalysisRecord → PostOutcome
  | failure : String → PostOutcome
deriving DecidableEq, Repr

/-- One `analyzeImage` invocation (`App.js` lines 97-146), with the
FileReader result and the network outcome as oracle inputs.  The guard
path (lines 98-101) only toasts and returns; otherwise `analyzing` is set
to `true`, the body is built from the data URL, the POST is issued, and
the success handler (lines 120-126) sets the analysis result, toasts, and
refreshes stats and history - without touching `analyzing` - while the
error handler (lines 127-131) toasts and resets `analyzing` to `false`. -/
def analyzeImage (st : UIState) (readerResult : String)
    (outcome : PostOutcome) : UIState × List UIRequest :=
  match st.selectedImage with
  | none =>
      ({ st with toasts := st.toasts ++ ["Please select an image first"] }, [])
  | some fileName =>
      let st1 := { st with analyzing := true }
      match analyzeRequestBody readerResult fileName with
      | none => (st1, [])
      | some body =>
          match outcome with
          | PostOutcome.success resp newStats newHistory =>
              ({ st1 with analysis := some resp
                          toasts := st1.toasts ++ ["Analysis complete!"]
                          stats := some newStats
                          history := newHistory },
               [UIRequest.postAnalyze body, UIRequest.getStats,
                UIRequest.getHistory])
          | PostOutcome.failure msg =>
              ({ st1 with toasts := st1.toasts ++ ["Analysis failed: " ++ msg]
                          analyzing := false },
               [UIRequest.postAnalyze body])

/-- C8: with no image selected, `analyzeImage` issues no HTTP request and
leaves analysis, history, stats - and the `analyzing` flag - unchanged;
it only appends an error toast and returns. -/
theorem no_image_no_request (st : UIState) (rr : String) (o : PostOutcome)
    (h : st.selectedImage = none) :
    (analyzeImage st rr o).2 = []
    ∧ (analyzeImage st rr o).1.analysis = st.analysis
    ∧ (analyzeImage st rr o).1.history = st.history
    ∧ (analyzeImage st rr o).1.stats = st.stats
    ∧ (analyzeImage st rr o).1.analyzing = st.analyzing
    ∧ (analyzeImage st rr o).1
        = { st with toasts := st.toasts ++ ["Please select an image first"] } := by
  unfold analyzeImage
  rw [h]
  exact ⟨rfl, rfl, rfl, rfl, rfl, rfl⟩

/-- A concrete pristine component state, used by witnesses. -/
def initUIState : UIState :=
  { selectedImage := none, imagePreview := none, analyzing := false,
    analysis := none, history := [], stats := none, toasts := [] }

/-- C8 witness: the guard theorem applied at the pristine state. -/
theorem no_image_no_request_witness :
    (analyzeImage initUIState "data:image/png;base64,QUJD"
        (PostOutcome.failure "x")).2 = []
    ∧ (analyzeImage initUIState "data:image/png;base64,QUJD"
        (PostOutcome.failure "x")).1.analyzing = initUIState.analyzing :=
  let h := no_image_no_request initUIState "data:image/png;base64,QUJD"
    (PostOutcome.failure "x") rfl
  ⟨h.1, h.2.2.2.2.1⟩

/-- C10: on the success path `analyzing` is left at `true` (only the
error path resets it to `false`); the success handler updates only the
analysis result, the toast log and the refreshed stats/history, leaving
`selectedImage` and `imagePreview` unchanged. -/
theorem success_keeps_analyzing (st : UIState) (f rr : String)
    (resp : AnalysisRecord) (ns : StatsSnapshot) (nh : List AnalysisRecord)
    (body : AnalyzeRequestBody) (msg : String)
    (hsel : st.selectedImage = some f)
    (hbody : analyzeRequestBody rr f = some body) :
    (analyzeImage st rr (PostOutcome.success resp ns nh)).1.analyzing = true
    ∧ (analyzeImage st rr (PostOutcome.success resp ns nh)).1.analysis
        = some resp
    ∧ (analyzeImage st rr (PostOutcome.success resp ns nh)).1.stats = some ns
    ∧ (analyzeImage st rr (PostOutcome.success resp ns nh)).1.history = nh
    ∧ (analyzeImage st rr (PostOutcome.success resp ns nh)).1.toasts
        = st.toasts ++ ["Analysis complete!"]
    ∧ (analyzeImage st rr (PostOutcome.success resp ns nh)).1.selectedImage
        = st.selectedImage
    ∧ (analyzeImage st rr (PostOutcome.success resp ns nh)).1.imagePreview
        = st.imagePreview
    ∧ (analyzeImage st rr (PostOutcome.failure msg)).1.analyzing = false := by
  unfold analyzeImage
  rw [hsel]
  simp [hbody]

/-- C10 witness: the success-path theorem applied at a concrete selected
file and a concrete 200 response. -/
theorem success_keeps_analyzing_witness :
    (analyzeImage { initUIState with selectedImage := some "w.png" }
        ("data:image/png;base64" ++ "," ++ "QUJD")
        (PostOutcome.success
          { id := 0, imageName := "w.png", timestamp := 1,
            detectedItems := [], overallSafetyScore := Score.safe,
            summary := "ok" }
          { total_analyses := 1, safe_count := 1, caution_count := 0,
            danger_count := 0 }
          [])).1.analyzing = true :=
  (success_keeps_analyzing { initUIState with selectedImage := some "w.png" }
    "w.png" ("data:image/png;base64" ++ "," ++ "QUJD")
    { id := 0, imageName := "w.png", timestamp := 1, detectedItems := [],
      overallSafetyScore := Score.safe, summary := "ok" }
    { total_analyses := 1, safe_count := 1, caution_count := 0,
      danger_count := 0 }
    [] { image_base64 := "QUJD", image_name := "w.png" } "boom" rfl
    ((analyze_request_fields "data:image/png;base64" "QUJD" "w.png"
      (by decide) (by decide)).1)).1
